import Mathlib

/-!
Verification of the beer-tracker service layer (`app/models.py`,
`app/beer_tracker.py`).

Embedding notes:
* Python `Decimal` values are modelled as `Rat`: the source performs exact
  decimal arithmetic (construction from literals and one multiplication),
  which `Rat` reproduces exactly.
* Python exceptions are modelled by `Except PyExc`; the `except` clauses of
  the source are translated by matching on the exception kind.
* The network is modelled by an explicit `HttpResult` argument describing
  the rate provider's reply to the single GET request the code can make;
  the returned `Bool` of `get_exchange_rate` records whether that request
  was issued.
* `app/database.py` (`get_session`) is not part of the sources; the store
  is modelled from the spec (see `Store` below).
-/

/-- Kinds of Python exceptions relevant to `app/models.py` and
`app/beer_tracker.py`.  `requestError`/`httpStatusError` are the `httpx`
transport and status errors, `invalidOperation` is `decimal.InvalidOperation`
(a subclass of `ArithmeticError`, not of `ValueError`), `attributeError` is
raised by `.get` on a non-dict object, and `other` stands for any further
exception (all are subclasses of `Exception`). -/
inductive PyExc where
  | requestError
  | httpStatusError
  | keyError
  | valueError
  | attributeError
  | invalidOperation
  | other
deriving DecidableEq, Repr

/-- Python `decimal.Decimal` modelled as an exact rational. -/
abbrev Decimal := Rat

/-- JSON values, as produced by `response.json()`. -/
inductive Json where
  | null
  | bool (b : Bool)
  | num (q : Rat)
  | str (s : String)
  | arr (elems : List Json)
  | obj (fields : List (String × Json))

/-- `CurrencyEnum` from `app/models.py`: a closed set of exactly EUR and USD. -/
inductive CurrencyEnum where
  | EUR
  | USD
deriving DecidableEq, Repr

/-- `CurrencyEnum.value`: the string payload of the enum member. -/
def CurrencyEnum.value : CurrencyEnum → String
  | .EUR => "EUR"
  | .USD => "USD"

/-- Python `datetime.date`: a plain calendar date (no time component).
Only its ISO rendering is used by the source (to build the request URL). -/
structure PyDate where
  year : Nat
  month : Nat
  day : Nat
deriving DecidableEq, Repr

/-- Zero-padded decimal rendering used by `date.isoformat`. -/
def padNat (width n : Nat) : String :=
  let s := toString n
  if s.length < width then String.mk (List.replicate (width - s.length) '0') ++ s else s

/-- `date.isoformat()`: `YYYY-MM-DD`. -/
def PyDate.isoformat (d : PyDate) : String :=
  padNat 4 d.year ++ "-" ++ padNat 2 d.month ++ "-" ++ padNat 2 d.day

/-- First-match association lookup, the behaviour of a Python dict built from
JSON (keys are unique after parsing). -/
def jlookup (fields : List (String × Json)) (k : String) : Option Json :=
  match fields with
  | [] => none
  | (k', v) :: rest => if k' = k then some v else jlookup rest k

/-- Python `data.get(key, default)`.  On a non-dict object (any JSON value
that is not an object) the attribute access `.get` raises `AttributeError`. -/
def dictGet (j : Json) (k : String) (default : Json) : Except PyExc Json :=
  match j with
  | .obj fields => .ok ((jlookup fields k).getD default)
  | _ => .error .attributeError

/-- Python `rates.get(key)` (no default): `none` when the key is absent.
Raises `AttributeError` when the receiver is not a dict. -/
def dictGetOpt (j : Json) (k : String) : Except PyExc (Option Json) :=
  match j with
  | .obj fields => .ok (jlookup fields k)
  | _ => .error .attributeError

/-- A JSON `null` stored under a key becomes Python `None`, indistinguishable
from an absent key for the `rate is not None` test. -/
def pyOpt : Option Json → Option Json
  | some .null => none
  | o => o

/-- Digits of a decimal numeral folded into a natural number. -/
def natOfDigits (cs : List Char) : Nat :=
  cs.foldl (fun n c => n * 10 + (c.toNat - 48)) 0

/-- Parse of a plain decimal numeral (optional sign, digits, optional single
decimal point), modelling the strings `Decimal(...)` accepts.  Exotic forms
(exponents, `NaN`, `Infinity`) are not modelled; no claim depends on string
rate values. -/
def parseDecimal (s : String) : Option Rat :=
  let cs := s.data
  let signed : Int × List Char :=
    match cs with
    | '+' :: r => (1, r)
    | '-' :: r => (-1, r)
    | _ => (1, cs)
  let ip := signed.2.takeWhile (fun c => c ≠ '.')
  let rest := signed.2.dropWhile (fun c => c ≠ '.')
  let fp? : Option (List Char) :=
    match rest with
    | [] => some []
    | _ :: fp => if fp.contains '.' then none else some fp
  match fp? with
  | none => none
  | some fp =>
    if ip.all (·.isDigit) ∧ fp.all (·.isDigit) ∧ (ip ≠ [] ∨ fp ≠ []) then
      some ((signed.1 * (natOfDigits ip * 10 ^ fp.length + natOfDigits fp) : Int) /
        ((10 : Rat) ^ fp.length))
    else none

/-- `Decimal(str(rate))` applied to the JSON value found under the target
currency.  `str` of a JSON number round-trips exactly; `str` of a bool,
list or dict is not a numeral, so `Decimal` raises
`decimal.InvalidOperation` — which is not in the source's `except` tuple. -/
def decimalOfStr (j : Json) : Except PyExc Rat :=
  match j with
  | .num q => .ok q
  | .str s =>
    match parseDecimal s with
    | some q => .ok q
    | none => .error .invalidOperation
  | .bool _ => .error .invalidOperation
  | .arr _ => .error .invalidOperation
  | .obj _ => .error .invalidOperation
  | .null => .error .invalidOperation

/-- Outcome of `response.json()`: a parse failure raises
`json.JSONDecodeError`, a subclass of `ValueError`. -/
inductive ResponseBody where
  | malformed
  | value (j : Json)

/-- The rate provider's behaviour for the single GET the code can issue:
either the transport layer raises `httpx.RequestError`, or a response with a
success flag (`raise_for_status` raises `httpx.HTTPStatusError` when false)
and a body arrives. -/
inductive HttpResult where
  | transportError
  | response (is2xx : Bool) (body : ResponseBody)

namespace ExchangeRateService

/-- `ExchangeRateService.BASE_URL`. -/
def BASE_URL : String := "https://api.exchangerate-api.com/v4/historical"

/-- The exception kinds caught by the source's
`except (httpx.RequestError, httpx.HTTPStatusError, KeyError, ValueError)`. -/
def caughtByHandler : PyExc → Bool
  | .requestError => true
  | .httpStatusError => true
  | .keyError => true
  | .valueError => true
  | _ => false

/-- The body of the `try` block of `get_exchange_rate` (lines 89–103 of
`app/models.py`): issue the GET, raise for status, parse the body, extract
`rates[to_currency]`, and convert it with `Decimal(str(rate))`.  Falling off
the end (rate missing or null) reaches the final `return None`. -/
def tryBlock (to_currency : CurrencyEnum) : HttpResult → Except PyExc (Option Decimal)
  | .transportError => .error .requestError
  | .response is2xx body =>
    if is2xx then
      match body with
      | .malformed => .error .valueError
      | .value data =>
        match dictGet data "rates" (.obj []) with
        | .error e => .error e
        | .ok rates =>
          match dictGetOpt rates to_currency.value with
          | .error e => .error e
          | .ok rateOpt =>
            match pyOpt rateOpt with
            | some rate =>
              match decimalOfStr rate with
              | .error e => .error e
              | .ok q => .ok (some q)
            | none => .ok none
    else .error .httpStatusError

/-- `ExchangeRateService.get_exchange_rate`.  Returns the Python result
(`Except` for an escaping exception, `Option` for the `None` failure value)
paired with whether a network request was issued.  Same-currency lookups
return `Decimal("1.0")` before the `try` block, with no request. -/
def get_exchange_rate (from_currency to_currency : CurrencyEnum) (rate_date : PyDate)
    (w : HttpResult) : Except PyExc (Option Decimal) × Bool :=
  if from_currency = to_currency then (.ok (some 1), false)
  else
    let _url := BASE_URL ++ "/" ++ from_currency.value ++ "/" ++ rate_date.isoformat
    match tryBlock to_currency w with
    | .ok v => (.ok v, true)
    | .error e => if caughtByHandler e then (.ok none, true) else (.error e, true)

/-- `ExchangeRateService.calculate_prices`: returns
`(eur_price, usd_price, exchange_rate_used)`.  An exception escaping
`get_exchange_rate` propagates (there is no handler here). -/
def calculate_prices (original_price : Decimal) (original_currency : CurrencyEnum)
    (purchase_date : PyDate) (w : HttpResult) :
    Except PyExc (Decimal × Decimal × Decimal) :=
  if original_currency = .EUR then
    match (get_exchange_rate .EUR .USD purchase_date w).1 with
    | .error e => .error e
    | .ok (some exchange_rate) =>
      .ok (original_price, original_price * exchange_rate, exchange_rate)
    | .ok none => .ok (original_price, 0, 1)
  else
    match (get_exchange_rate .USD .EUR purchase_date w).1 with
    | .error e => .error e
    | .ok (some exchange_rate) =>
      .ok (original_price * exchange_rate, original_price, exchange_rate)
    | .ok none => .ok (0, original_price, 1)

end ExchangeRateService

/-- `BeerEntry` from `app/models.py` (the persisted model).  In the source
`id` is `Optional[int]` until the insert assigns it; entries modelled here
are persisted rows, so `id` is always present.  `created_at` is the
`datetime.utcnow` default applied when the row is built during `create`,
modelled as an abstract clock value. -/
structure BeerEntry where
  id : Nat
  beer_name : String
  original_price : Decimal
  original_currency : CurrencyEnum
  purchase_date : PyDate
  eur_price : Decimal
  usd_price : Decimal
  exchange_rate : Decimal
  created_at : Nat
deriving DecidableEq, Repr

/-- `BeerEntryCreate` from `app/models.py`: the caller-supplied fields.
It has no `id` and no `created_at` field. -/
structure BeerEntryCreate where
  beer_name : String
  original_price : Decimal
  original_currency : CurrencyEnum
  purchase_date : PyDate
deriving DecidableEq, Repr

/-- Modelled from the spec: `app/database.py` (`get_session`) is not among
the sources.  Per §4.2/§6/§7 of the spec the store is the relational table
`beer_entries` in storage-native (insertion) order, with `id` auto-assigned
by the store; a failed transaction commits nothing (no partial writes). -/
structure Store where
  entries : List BeerEntry
  nextId : Nat
deriving DecidableEq, Repr

namespace BeerTrackerService

/-- `session.get(BeerEntry, entry_id)`: primary-key lookup, first (unique)
row with the given id. -/
def findById (i : Nat) : List BeerEntry → Option BeerEntry
  | [] => none
  | e :: rest => if e.id = i then some e else findById i rest

/-- `session.delete(entry)` on the row found by primary key: removes that
one row. -/
def removeFirstById (i : Nat) : List BeerEntry → List BeerEntry
  | [] => []
  | e :: rest => if e.id = i then rest else e :: removeFirstById i rest

/-- `BeerTrackerService.create_beer_entry`.  `w` is the rate provider's
behaviour for the calculator's request, `now` the insertion clock, and
`persistFailure` the outcome of the `session.add/commit/refresh` block
(modelled from the spec: a persistence exception aborts the transaction with
no partial record).  The surrounding `except Exception` turns any exception
into a `None` result. -/
def create_beer_entry (entry_data : BeerEntryCreate) (s : Store) (w : HttpResult)
    (now : Nat) (persistFailure : Option PyExc) : Option BeerEntry × Store :=
  match ExchangeRateService.calculate_prices entry_data.original_price
      entry_data.original_currency entry_data.purchase_date w with
  | .error _ => (none, s)
  | .ok (eur_price, usd_price, exchange_rate) =>
    match persistFailure with
    | some _ => (none, s)
    | none =>
      let beer_entry : BeerEntry :=
        { id := s.nextId
          beer_name := entry_data.beer_name
          original_price := entry_data.original_price
          original_currency := entry_data.original_currency
          purchase_date := entry_data.purchase_date
          eur_price := eur_price
          usd_price := usd_price
          exchange_rate := exchange_rate
          created_at := now }
      (some beer_entry, { entries := s.entries ++ [beer_entry], nextId := s.nextId + 1 })

/-- `BeerTrackerService.get_all_beer_entries`: `select(BeerEntry)` with no
ordering clause returns the rows in storage-native (insertion) order. -/
def get_all_beer_entries (s : Store) : List BeerEntry :=
  s.entries

/-- `BeerTrackerService.delete_beer_entry`.  `persistFailure` models the
session raising during lookup/removal/commit; the `except Exception` handler
returns `False` and the aborted transaction leaves the store unchanged. -/
def delete_beer_entry (entry_id : Nat) (s : Store) (persistFailure : Option PyExc) :
    Bool × Store :=
  match persistFailure with
  | some _ => (false, s)
  | none =>
    match findById entry_id s.entries with
    | some _ => (true, { s with entries := removeFirstById entry_id s.entries })
    | none => (false, s)

/-- The operations the service exposes on the store, with their modelled
environments. -/
inductive Op where
  | create (d : BeerEntryCreate) (w : HttpResult) (now : Nat) (pf : Option PyExc)
  | delete (i : Nat) (pf : Option PyExc)
  | list

/-- The store after one service operation. -/
def step (s : Store) : Op → Store
  | .create d w now pf => (create_beer_entry d s w now pf).2
  | .delete i pf => (delete_beer_entry i s pf).2
  | .list => s

end BeerTrackerService

/-- Scenario constant: a rate-provider reply carrying rate 2 for USD. -/
def wRate2 : HttpResult := .response true (.value (.obj [("rates", .obj [("USD", .num 2)])]))

/-- Scenario constant: a rate-provider reply carrying rate 9/10 for EUR. -/
def wRate09 : HttpResult := .response true (.value (.obj [("rates", .obj [("EUR", .num (9/10))])]))

/-- Scenario constant: a well-formed 200 reply whose body is the JSON array
`[]` rather than an object. -/
def wArrayBody : HttpResult := .response true (.value (.arr []))

/-- Scenario constant: a zero-priced entry input ("Free Beer" in the
repository's tests shows the model accepts price 0). -/
def freeBeerInput : BeerEntryCreate := ⟨"Free Beer", 0, .EUR, ⟨2023, 1, 1⟩⟩

/-- Scenario constant: the row `create` persists for `freeBeerInput` on an
empty store under `wRate2` at clock 5. -/
def freeBeerRow : BeerEntry := ⟨1, "Free Beer", 0, .EUR, ⟨2023, 1, 1⟩, 0, 0 * 2, 2, 5⟩

/-- Scenario constant: the spec's "Beer One" row (EUR 5.00, rate 1.1). -/
def beerOneRow : BeerEntry := ⟨1, "Beer One", 5, .EUR, ⟨2023, 1, 1⟩, 5, 11/2, 11/10, 1⟩

/-- Scenario constant: the spec's "Beer Two" input (USD 8.00). -/
def beerTwoInput : BeerEntryCreate := ⟨"Beer Two", 8, .USD, ⟨2023, 1, 2⟩⟩

/-- Scenario constant: a one-row store holding `beerOneRow`, next id 2. -/
def storeOne : Store := ⟨[beerOneRow], 2⟩

/-- Scenario constant: a store with no entries, next id 1. -/
def emptyStore : Store := ⟨[], 1⟩

/-- Scenario constant: the spec's "Beer Two" row as persisted on `storeOne`
under `wRate09` (USD 8.00, rate 0.9). -/
def beerTwoRow : BeerEntry := ⟨2, "Beer Two", 8, .USD, ⟨2023, 1, 2⟩, 8 * (9/10), 8, 9/10, 2⟩

/-- Scenario constant: a two-row store holding `beerOneRow` and `beerTwoRow`. -/
def storeTwo : Store := ⟨[beerOneRow, beerTwoRow], 3⟩

/-- Scenario constant: an EUR entry input used to exercise `create`. -/
def lagerInput : BeerEntryCreate := ⟨"Lager", 3, .EUR, ⟨2023, 2, 2⟩⟩

/-- Scenario constant: the row `create` persists for `lagerInput` on an empty
store under `wRate2` at clock 9. -/
def lagerRow : BeerEntry := ⟨1, "Lager", 3, .EUR, ⟨2023, 2, 2⟩, 3, 3 * 2, 2, 9⟩

/-- Scenario constant: an EUR entry input created while the rate provider is
unreachable. -/
def pilsInput : BeerEntryCreate := ⟨"Pils", 4, .EUR, ⟨2024, 6, 1⟩⟩

/-- Scenario constant: the row `create` persists for `pilsInput` on an empty
store with the fallback pricing, at clock 99. -/
def pilsRow : BeerEntry := ⟨1, "Pils", 4, .EUR, ⟨2024, 6, 1⟩, 4, 0, 1, 99⟩

namespace BeerTrackerService

theorem findById_eq_none (i : Nat) (l : List BeerEntry) :
    findById i l = none ↔ i ∉ l.map BeerEntry.id := by
  induction l with
  | nil => simp [findById]
  | cons e rest ih =>
    by_cases h : e.id = i
    · simp [findById, h]
    · simp [findById, h, ih, Ne.symm h]

theorem mem_removeFirstById {x : BeerEntry} {i : Nat} {l : List BeerEntry}
    (h : x ∈ removeFirstById i l) : x ∈ l := by
  induction l with
  | nil => simp [removeFirstById] at h
  | cons e rest ih =>
    by_cases he : e.id = i
    · simp [removeFirstById, he] at h
      exact List.mem_cons_of_mem e h
    · simp [removeFirstById, he] at h
      rcases h with h | h
      · exact h ▸ List.mem_cons_self e rest
      · exact List.mem_cons_of_mem e (ih h)

theorem removeFirstById_eq_filter {i : Nat} {l : List BeerEntry}
    (h : (l.map BeerEntry.id).Nodup) :
    removeFirstById i l = l.filter (fun e => e.id != i) := by
  induction l with
  | nil => rfl
  | cons e rest ih =>
    simp only [List.map_cons, List.nodup_cons] at h
    by_cases he : e.id = i
    · have hall : rest.filter (fun x => x.id != i) = rest := by
        apply List.filter_eq_self.mpr
        intro x hx
        have : x.id ≠ i := fun hxi => h.1 (by
          rw [he]
          exact hxi ▸ List.mem_map_of_mem BeerEntry.id hx)
        simpa using this
      simp [removeFirstById, he, hall]
    · simp [removeFirstById, he, ih h.2]

end BeerTrackerService

open ExchangeRateService BeerTrackerService

/-- Claim C5: for every currency `c` in EUR/USD and every date, looking up the
rate from `c` to `c` returns exactly `1.0` and issues no network request,
whatever the rate provider would have answered. -/
theorem c5_same_currency_rate_one (c : CurrencyEnum) (d : PyDate) (w : HttpResult) :
    get_exchange_rate c c d w = (.ok (some 1), false) := by
  simp [get_exchange_rate]

/-- Claim C2: with an available rate `r` (a lookup returning `r`),
`calculate_prices(p, EUR, d)` yields `(eur = p, usd = p * r, rate = r)`, and
`calculate_prices(p, USD, d)` yields `(eur = p * r, usd = p, rate = r)`. -/
theorem c2_calculate_prices_rate_available (p : Decimal) (d : PyDate) (w : HttpResult)
    (r : Decimal) (b : Bool) :
    (get_exchange_rate .EUR .USD d w = (.ok (some r), b) →
      calculate_prices p .EUR d w = .ok (p, p * r, r)) ∧
    (get_exchange_rate .USD .EUR d w = (.ok (some r), b) →
      calculate_prices p .USD d w = .ok (p * r, p, r)) := by
  constructor <;> intro h <;> simp [calculate_prices, h]

/-- Witness for `c2_calculate_prices_rate_available`: the EUR branch at price
5 with the provider answering rate 2. -/
theorem c2_calculate_prices_rate_available_witness :
    get_exchange_rate .EUR .USD ⟨2023, 1, 1⟩ wRate2 = (.ok (some 2), true) ∧
    calculate_prices 5 .EUR ⟨2023, 1, 1⟩ wRate2 = .ok (5, 5 * 2, 2) :=
  ⟨rfl, (c2_calculate_prices_rate_available 5 ⟨2023, 1, 1⟩ wRate2 2 true).1 rfl⟩

/-- Claim C3: when the rate lookup fails (returns the `None` failure value),
`calculate_prices` preserves the originating currency's price, sets the other
price to 0, and records the rate as `1.0`. -/
theorem c3_calculate_prices_rate_unavailable (p : Decimal) (d : PyDate) (w : HttpResult) :
    ((get_exchange_rate .EUR .USD d w).1 = .ok none →
      calculate_prices p .EUR d w = .ok (p, 0, 1)) ∧
    ((get_exchange_rate .USD .EUR d w).1 = .ok none →
      calculate_prices p .USD d w = .ok (0, p, 1)) := by
  constructor <;> intro h <;> simp [calculate_prices, h]

/-- Witness for `c3_calculate_prices_rate_unavailable`: a transport error on
the EUR branch at price 5. -/
theorem c3_calculate_prices_rate_unavailable_witness :
    (get_exchange_rate .EUR .USD ⟨2023, 1, 1⟩ .transportError).1 = .ok none ∧
    calculate_prices 5 .EUR ⟨2023, 1, 1⟩ .transportError = .ok (5, 0, 1) :=
  ⟨rfl, (c3_calculate_prices_rate_unavailable 5 ⟨2023, 1, 1⟩ .transportError).1 rfl⟩

/-- Claim C4 (failing input): a 200 reply whose body is the JSON array `[]`
is a malformed response, yet `data.get("rates", {})` raises `AttributeError`,
which is not in the source's `except` tuple: `get_exchange_rate` raises
instead of returning `None`, and `calculate_prices` propagates the exception
past its boundary — against the source's own docstring ("Returns: Exchange
rate as Decimal, or None if unable to fetch"). -/
theorem c4_unhandled_attribute_error :
    get_exchange_rate .EUR .USD ⟨2023, 1, 1⟩ wArrayBody = (.error .attributeError, true) ∧
    calculate_prices (21/2) .EUR ⟨2023, 1, 1⟩ wArrayBody = .error .attributeError :=
  ⟨rfl, rfl⟩

/-- Claim C1 (amended): for every entry `create` persists, the price matching
`original_currency` equals `original_price` verbatim, and the other price
equals `original_price * rate` when the lookup returned a rate `r` (with
`exchange_rate = r`), or `0` with `exchange_rate = 1.0` when the lookup
failed.  (The original "exactly one equals verbatim" is refuted by
`c1_exactly_one_fails_at_zero_price`.) -/
theorem c1_price_fields_of_create (d : BeerEntryCreate) (s : Store) (w : HttpResult)
    (now : Nat) (e : BeerEntry)
    (h : (create_beer_entry d s w now none).1 = some e) :
    (d.original_currency = .EUR →
      e.eur_price = e.original_price ∧
      (match (get_exchange_rate .EUR .USD d.purchase_date w).1 with
       | .ok (some r) => e.usd_price = e.original_price * r ∧ e.exchange_rate = r
       | .ok none => e.usd_price = 0 ∧ e.exchange_rate = 1
       | .error _ => True)) ∧
    (d.original_currency = .USD →
      e.usd_price = e.original_price ∧
      (match (get_exchange_rate .USD .EUR d.purchase_date w).1 with
       | .ok (some r) => e.eur_price = e.original_price * r ∧ e.exchange_rate = r
       | .ok none => e.eur_price = 0 ∧ e.exchange_rate = 1
       | .error _ => True)) := by
  cases hc : d.original_currency with
  | EUR =>
    refine ⟨fun _ => ?_, fun hUSD => by simp [hc] at hUSD⟩
    cases hg : (get_exchange_rate .EUR .USD d.purchase_date w).1 with
    | error exc =>
      exfalso
      simp [create_beer_entry, calculate_prices, hc, hg] at h
    | ok v =>
      cases v with
      | none =>
        simp [create_beer_entry, calculate_prices, hc, hg] at h
        subst h
        exact ⟨rfl, rfl, rfl⟩
      | some r =>
        simp [create_beer_entry, calculate_prices, hc, hg] at h
        subst h
        exact ⟨rfl, rfl, rfl⟩
  | USD =>
    refine ⟨fun hEUR => by simp [hc] at hEUR, fun _ => ?_⟩
    cases hg : (get_exchange_rate .USD .EUR d.purchase_date w).1 with
    | error exc =>
      exfalso
      simp [create_beer_entry, calculate_prices, hc, hg] at h
    | ok v =>
      cases v with
      | none =>
        simp [create_beer_entry, calculate_prices, hc, hg] at h
        subst h
        exact ⟨rfl, rfl, rfl⟩
      | some r =>
        simp [create_beer_entry, calculate_prices, hc, hg] at h
        subst h
        exact ⟨rfl, rfl, rfl⟩

/-- Counterexample to claim C1 as stated: creating the zero-priced entry the
repository's tests allow ("Free Beer", price 0) with an available rate 2
persists a row whose EUR and USD prices BOTH equal the original price (both
are 0), so "exactly one of eur_price/usd_price equals original_price
verbatim" is false for this persisted entry. -/
theorem c1_exactly_one_fails_at_zero_price :
    (create_beer_entry freeBeerInput emptyStore wRate2 5 none).1 = some freeBeerRow ∧
    ¬ (freeBeerRow.eur_price = freeBeerRow.original_price ∧
       freeBeerRow.usd_price ≠ freeBeerRow.original_price) := by
  refine ⟨rfl, fun h => h.2 ?_⟩
  show (0 : Decimal) * 2 = 0
  norm_num

/-- Witness for `c1_price_fields_of_create`: "Lager" (EUR 3) created on an
empty store with the provider answering rate 2. -/
theorem c1_price_fields_of_create_witness :
    (create_beer_entry lagerInput emptyStore wRate2 9 none).1 = some lagerRow ∧
    ((lagerInput.original_currency = .EUR →
      lagerRow.eur_price = lagerRow.original_price ∧
      (match (get_exchange_rate .EUR .USD lagerInput.purchase_date wRate2).1 with
       | .ok (some r) => lagerRow.usd_price = lagerRow.original_price * r ∧ lagerRow.exchange_rate = r
       | .ok none => lagerRow.usd_price = 0 ∧ lagerRow.exchange_rate = 1
       | .error _ => True)) ∧
    (lagerInput.original_currency = .USD →
      lagerRow.usd_price = lagerRow.original_price ∧
      (match (get_exchange_rate .USD .EUR lagerInput.purchase_date wRate2).1 with
       | .ok (some r) => lagerRow.eur_price = lagerRow.original_price * r ∧ lagerRow.exchange_rate = r
       | .ok none => lagerRow.eur_price = 0 ∧ lagerRow.exchange_rate = 1
       | .error _ => True))) :=
  ⟨rfl, c1_price_fields_of_create lagerInput emptyStore wRate2 9 lagerRow rfl⟩

/-- Claim C6: when `create` fails for any reason — the calculator raised, or
the persistence step failed — it returns the `None` failure signal and the
store is unchanged (no partial record). -/
theorem c6_create_failure_aborts (d : BeerEntryCreate) (s : Store) (w : HttpResult)
    (now : Nat) (pf : Option PyExc)
    (h : (∃ exc, calculate_prices d.original_price d.original_currency d.purchase_date w
        = .error exc) ∨ pf ≠ none) :
    create_beer_entry d s w now pf = (none, s) := by
  unfold create_beer_entry
  rcases h with ⟨exc, hexc⟩ | hpf
  · simp [hexc]
  · cases hcalc : calculate_prices d.original_price d.original_currency d.purchase_date w with
    | error exc => simp
    | ok t =>
      obtain ⟨eur, usd, rate⟩ := t
      cases hp : pf with
      | none => exact absurd hp hpf
      | some exc => simp

/-- Witness for `c6_create_failure_aborts`: a persistence failure while
creating "Beer Two" on the one-row store, with the rate available. -/
theorem c6_create_failure_aborts_witness :
    ((∃ exc, calculate_prices beerTwoInput.original_price beerTwoInput.original_currency
        beerTwoInput.purchase_date wRate09 = .error exc) ∨
      (some PyExc.other : Option PyExc) ≠ none) ∧
    create_beer_entry beerTwoInput storeOne wRate09 3 (some .other) = (none, storeOne) :=
  ⟨Or.inr (by simp), c6_create_failure_aborts beerTwoInput storeOne wRate09 3 (some .other)
    (Or.inr (by simp))⟩

/-- Claim C7: on a store whose ids are unique (the primary-key guarantee),
`delete` of an absent id returns false and leaves the store unchanged, and
`delete` of a present id returns true and removes exactly that entry, keeping
every other entry (in order). -/
theorem c7_delete_contract (s : Store) (i : Nat)
    (hnd : (s.entries.map BeerEntry.id).Nodup) :
    (i ∉ s.entries.map BeerEntry.id → delete_beer_entry i s none = (false, s)) ∧
    (i ∈ s.entries.map BeerEntry.id →
      (delete_beer_entry i s none).1 = true ∧
      (delete_beer_entry i s none).2.entries = s.entries.filter (fun e => e.id != i)) := by
  constructor
  · intro hni
    simp [delete_beer_entry, (findById_eq_none i s.entries).mpr hni]
  · intro hi
    cases hf : findById i s.entries with
    | none => exact absurd hi ((findById_eq_none i s.entries).mp hf)
    | some e0 =>
      exact ⟨by simp [delete_beer_entry, hf],
        by simp [delete_beer_entry, hf, removeFirstById_eq_filter hnd]⟩

/-- Witness for `c7_delete_contract`: deleting id 1 from the two-row store
removes "Beer One" and keeps "Beer Two". -/
theorem c7_delete_contract_witness :
    ((storeTwo.entries.map BeerEntry.id).Nodup ∧ 1 ∈ storeTwo.entries.map BeerEntry.id) ∧
    (delete_beer_entry 1 storeTwo none).1 = true ∧
    (delete_beer_entry 1 storeTwo none).2.entries = storeTwo.entries.filter (fun e => e.id != 1) :=
  ⟨⟨by decide, by decide⟩, (c7_delete_contract storeTwo 1 (by decide)).2 (by decide)⟩

/-- Claim C8: a successful `create` appends exactly one new entry — whose
fields match the input plus the computed eur/usd prices and rate — and
`list` then returns the prior entries, with their stored prices untouched,
followed by the new one (insertion order); on an empty store, `list` returns
exactly that one entry. -/
theorem c8_create_then_list (d : BeerEntryCreate) (s : Store) (w : HttpResult) (now : Nat)
    (eur usd rate : Decimal)
    (h : calculate_prices d.original_price d.original_currency d.purchase_date w
      = .ok (eur, usd, rate)) :
    ∃ e : BeerEntry,
      create_beer_entry d s w now none
        = (some e, { entries := s.entries ++ [e], nextId := s.nextId + 1 }) ∧
      get_all_beer_entries (create_beer_entry d s w now none).2 = s.entries ++ [e] ∧
      e.beer_name = d.beer_name ∧ e.original_price = d.original_price ∧
      e.original_currency = d.original_currency ∧ e.purchase_date = d.purchase_date ∧
      e.eur_price = eur ∧ e.usd_price = usd ∧ e.exchange_rate = rate ∧
      (s.entries = [] →
        get_all_beer_entries (create_beer_entry d s w now none).2 = [e]) := by
  refine ⟨⟨s.nextId, d.beer_name, d.original_price, d.original_currency, d.purchase_date,
      eur, usd, rate, now⟩,
    ?_, ?_, rfl, rfl, rfl, rfl, rfl, rfl, rfl, ?_⟩
  · simp [create_beer_entry, h]
  · simp [create_beer_entry, get_all_beer_entries, h]
  · intro hs
    simp [create_beer_entry, get_all_beer_entries, h, hs]

/-- Witness for `c8_create_then_list`: the spec's scenario — the store holds
"Beer One" (EUR 5.00, rate 1.1); creating "Beer Two" (USD 8.00) with the
provider answering rate 0.9 lists both, in insertion order. -/
theorem c8_create_then_list_witness :
    calculate_prices beerTwoInput.original_price beerTwoInput.original_currency
      beerTwoInput.purchase_date wRate09 = .ok (8 * (9/10), 8, 9/10) ∧
    ∃ e : BeerEntry,
      create_beer_entry beerTwoInput storeOne wRate09 2 none
        = (some e, { entries := storeOne.entries ++ [e], nextId := storeOne.nextId + 1 }) ∧
      get_all_beer_entries (create_beer_entry beerTwoInput storeOne wRate09 2 none).2
        = storeOne.entries ++ [e] ∧
      e.beer_name = beerTwoInput.beer_name ∧ e.original_price = beerTwoInput.original_price ∧
      e.original_currency = beerTwoInput.original_currency ∧
      e.purchase_date = beerTwoInput.purchase_date ∧
      e.eur_price = 8 * (9/10) ∧ e.usd_price = 8 ∧ e.exchange_rate = 9/10 ∧
      (storeOne.entries = [] →
        get_all_beer_entries (create_beer_entry beerTwoInput storeOne wRate09 2 none).2 = [e]) :=
  ⟨rfl, c8_create_then_list beerTwoInput storeOne wRate09 2 (8 * (9/10)) 8 (9/10) rfl⟩

/-- Claim C9: after any service operation, every entry in the store either
was already present, unchanged — in particular its `created_at` is never
modified after insertion — or is the entry just persisted by a successful
`create`, whose `id` and `created_at` are assigned by the repository
(`nextId` and the insertion clock) while all its other fields come from the
caller's input (which has no id/created_at field to supply). -/
theorem c9_repository_assigns_id_created_at (s : Store) (op : Op) (e : BeerEntry)
    (h : e ∈ (step s op).entries) :
    e ∈ s.entries ∨
    ∃ d w now, op = .create d w now none ∧ e.id = s.nextId ∧ e.created_at = now ∧
      e.beer_name = d.beer_name ∧ e.original_price = d.original_price ∧
      e.original_currency = d.original_currency ∧ e.purchase_date = d.purchase_date := by
  cases op with
  | list => exact Or.inl h
  | delete i pf =>
    cases pf with
    | some exc => exact Or.inl h
    | none =>
      cases hf : findById i s.entries with
      | none =>
        simp [step, delete_beer_entry, hf] at h
        exact Or.inl h
      | some e0 =>
        simp [step, delete_beer_entry, hf] at h
        exact Or.inl (mem_removeFirstById h)
  | create d w now pf =>
    cases hcalc : calculate_prices d.original_price d.original_currency d.purchase_date w with
    | error exc =>
      simp [step, create_beer_entry, hcalc] at h
      exact Or.inl h
    | ok t =>
      obtain ⟨eur, usd, rate⟩ := t
      cases pf with
      | some exc =>
        simp [step, create_beer_entry, hcalc] at h
        exact Or.inl h
      | none =>
        simp [step, create_beer_entry, hcalc] at h
        rcases h with h | h
        · exact Or.inl h
        · right
          exact ⟨d, w, now, rfl, by simp [h], by simp [h], by simp [h], by simp [h],
            by simp [h], by simp [h]⟩

/-- Witness for `c9_repository_assigns_id_created_at`: "Pils" created on an
empty store while the provider is unreachable; the persisted row carries the
store-assigned id 1 and clock 99. -/
theorem c9_repository_assigns_id_created_at_witness :
    pilsRow ∈ (step emptyStore (.create pilsInput .transportError 99 none)).entries ∧
    (pilsRow ∈ emptyStore.entries ∨
      ∃ d w now, Op.create pilsInput HttpResult.transportError 99 none = .create d w now none ∧
        pilsRow.id = emptyStore.nextId ∧ pilsRow.created_at = now ∧
        pilsRow.beer_name = d.beer_name ∧ pilsRow.original_price = d.original_price ∧
        pilsRow.original_currency = d.original_currency ∧
        pilsRow.purchase_date = d.purchase_date) := by
  have hmem : pilsRow ∈ (step emptyStore (.create pilsInput .transportError 99 none)).entries := by
    simp [step, create_beer_entry, calculate_prices, get_exchange_rate, tryBlock,
      caughtByHandler, pilsInput, pilsRow, emptyStore]
  exact ⟨hmem, c9_repository_assigns_id_created_at emptyStore _ pilsRow hmem⟩

/-- Claim C10: `delete` never raises: when the underlying store raises any
exception, `delete` returns false with the store unchanged — the same boolean
a nonexistent id produces, so the caller cannot tell a persistence failure
from a not-found result. -/
theorem c10_delete_swallows_exceptions (s : Store) (i : Nat) (exc : PyExc) (j : Nat)
    (hj : j ∉ s.entries.map BeerEntry.id) :
    delete_beer_entry i s (some exc) = (false, s) ∧
    (delete_beer_entry i s (some exc)).1 = (delete_beer_entry j s none).1 := by
  refine ⟨rfl, ?_⟩
  simp [delete_beer_entry, (findById_eq_none j s.entries).mpr hj]

/-- Witness for `c10_delete_swallows_exceptions`: a store exception while
deleting id 1 from the two-row store returns the same false as deleting the
absent id 7. -/
theorem c10_delete_swallows_exceptions_witness :
    (7 ∉ storeTwo.entries.map BeerEntry.id) ∧
    delete_beer_entry 1 storeTwo (some .other) = (false, storeTwo) ∧
    (delete_beer_entry 1 storeTwo (some .other)).1 = (delete_beer_entry 7 storeTwo none).1 :=
  ⟨by decide, c10_delete_swallows_exceptions storeTwo 1 .other 7 (by decide)⟩
